import Mathlib

/-!
Shallow embedding of `app.py`, a webhook-driven moderation bot for a group
chat platform, together with theorems settling the specification claims.

The embedding models:
* Python strings as Lean `String`; `str.lower()` as a character-wise ASCII
  lowering (the keyword list and all texts of interest are ASCII);
  the substring operator `in` as `strContains`;
* the module-level dict `recently_joined` as a function
  `String → Option Int` (time measured in seconds);
* `datetime.now()` as an explicit `now : Int` parameter threaded through
  the functions that call it;
* the outbound HTTP layer (`requests`) as an explicit `Network` record of
  response outcomes, where a raised exception is an `Except.error`;
  `except requests.RequestException` clauses catch exactly the errors
  classified as request exceptions (`requests.exceptions.JSONDecodeError`,
  raised by `response.json()` on a non-JSON body, subclasses
  `RequestException` in the `requests` versions this code runs on);
* the Flask handler `webhook` as a function from an already-parsed event
  payload, the tracker state, the clock and the network to a status code,
  the new tracker state and the ordered list of outbound operations invoked.
-/

/-! ### Python string primitives -/

/-- Character-wise ASCII lowering, modelling `str.lower()` on the ASCII
fragment used by the program. -/
def pyLowerChar (c : Char) : Char :=
  if 'A' ≤ c ∧ c ≤ 'Z' then Char.ofNat (c.toNat + 32) else c

/-- `s.lower()` on Python strings, character-wise. -/
def pyLower (s : String) : String :=
  ⟨s.data.map pyLowerChar⟩

/-- `needle` occurs as a contiguous run starting at the head of `haystack`. -/
def charsPrefix : List Char → List Char → Bool
  | [], _ => true
  | _ :: _, [] => false
  | a :: as, b :: bs => a == b && charsPrefix as bs

/-- `needle` occurs as a contiguous run anywhere in `haystack`:
the Python substring operator `needle in haystack`. -/
def charsSub (n : List Char) (h : List Char) : Bool :=
  charsPrefix n h ||
    match h with
    | [] => false
    | _ :: t => charsSub n t

/-- Python `n in h` for strings. -/
def strContains (n h : String) : Bool :=
  charsSub n.data h.data

/-- Python truthiness of a string: nonempty. -/
def pyTruthyStr (s : String) : Bool :=
  s ≠ ""

/-- Python truthiness of an optional string (`None` is falsy, `''` is falsy). -/
def pyTruthyOptStr : Option String → Bool
  | none => false
  | some s => pyTruthyStr s

/-! ### Configuration and keyword list (module level of `app.py`) -/

/-- The three environment-sourced credentials; `none` models an unset
environment variable. -/
structure Config where
  BOT_ID : Option String
  ACCESS_TOKEN : Option String
  GROUP_ID : Option String

/-- `BANNED_KEYWORDS` exactly as the Python list literal evaluates: the
adjacent literals `'health'` and `'charger included'` concatenate into the
single element `"healthcharger included"`. -/
def BANNED_KEYWORDS : List String :=
  [ "give out",
    "for free",
    "willing to give",
    "free because",
    "free",
    "give it because",
    "macbook",
    "macbook air",
    "ps5",
    "playstation",
    "gaming system",
    "model 2025",
    "lost my son",
    "cancer",
    "son",
    "daughter",
    "hurts my soul",
    "no mother should",
    "god knows best",
    "text me",
    "send me a message",
    "email",
    "gmail",
    "hotmail",
    "yahoo",
    "perfect health and good condition",
    "condition",
    "healthcharger included",
    "afford one",
    "interested" ]

/-- `NEW_USER_WINDOW_HOURS = 72`. -/
def NEW_USER_WINDOW_HOURS : Int := 72

/-- Seconds per hour; the embedding measures instants in seconds. -/
def secondsPerHour : Int := 3600

/-- The new-user window as a duration (`timedelta(hours=72)`). -/
def newUserWindow : Int := NEW_USER_WINDOW_HOURS * secondsPerHour

/-- `validate_config()`: raises `ValueError` when any of the three
credentials is falsy (`not all([BOT_ID, ACCESS_TOKEN, GROUP_ID])`). -/
def validate_config (cfg : Config) : Except String Unit :=
  if pyTruthyOptStr cfg.BOT_ID && pyTruthyOptStr cfg.ACCESS_TOKEN &&
      pyTruthyOptStr cfg.GROUP_ID then
    Except.ok ()
  else
    Except.error "Missing BOT_ID, ACCESS_TOKEN, or GROUP_ID"

/-- One step performed by the `if __name__ == '__main__'` block. -/
inductive StartupStep where
  | logStartMessage
  | validateConfig
  | runServer
deriving DecidableEq

/-- The `if __name__ == '__main__'` block of `app.py`, as the ordered list
of steps it performs: it logs a start message and calls `app.run`; it never
invokes `validate_config`, whatever the configuration holds. -/
def mainStartup (_cfg : Config) : List StartupStep :=
  [StartupStep.logStartMessage, StartupStep.runServer]

/-! ### Moderation policy -/

/-- `contains_banned_keyword(text)`: falsy text short-circuits to `False`;
otherwise any lowered keyword occurring as a substring of the lowered text
triggers. -/
def contains_banned_keyword (text : String) : Bool :=
  if ¬ pyTruthyStr text then
    false
  else
    BANNED_KEYWORDS.any fun keyword => strContains (pyLower keyword) (pyLower text)

/-! ### Membership tracker -/

/-- The module-level dict `recently_joined`, mapping a user id to its join
instant. -/
def Tracker : Type := String → Option Int

/-- The empty dict. -/
def emptyTracker : Tracker := fun _ => none

/-- `recently_joined[u] = t`. -/
def trackerInsert (st : Tracker) (u : String) (t : Int) : Tracker :=
  fun v => if v = u then some t else st v

/-- `del recently_joined[u]` (on a key known present; the model is total). -/
def trackerErase (st : Tracker) (u : String) : Tracker :=
  fun v => if v = u then none else st v

/-- `is_new_user(user_id)` evaluated with clock `now`: returns the boolean
result together with the dict after the call (the call deletes the entry
when the elapsed time strictly exceeds the window). -/
def is_new_user (st : Tracker) (now : Int) (user_id : String) : Bool × Tracker :=
  match st user_id with
  | none => (false, st)
  | some join_time =>
    if now - join_time > newUserWindow then
      (false, trackerErase st user_id)
    else
      (true, st)

/-! ### Outbound HTTP layer -/

/-- Parsed JSON values; Python `None` and JSON `null` coincide as `.null`. -/
inductive Json where
  | null
  | bool (b : Bool)
  | str (s : String)
  | num (n : Int)
  | arr (elems : List Json)
  | obj (fields : List (String × Json))

/-- Python exceptions the modelled code can raise. -/
inductive PyErr where
  | requestException (msg : String)
  | jsonDecodeError
  | keyError (key : String)
  | typeError (msg : String)
deriving DecidableEq

/-- Which errors `except requests.RequestException` catches
(`JSONDecodeError` from `response.json()` subclasses it). -/
def PyErr.isRequestException : PyErr → Bool
  | PyErr.requestException _ => true
  | PyErr.jsonDecodeError => true
  | PyErr.keyError _ => false
  | PyErr.typeError _ => false

/-- An HTTP response: a status code and the body, `none` when the body is
not valid JSON. -/
structure HttpResponse where
  status_code : Nat
  body : Option Json

/-- `response.json()`: the parsed body, or a decode error. -/
def HttpResponse.json (r : HttpResponse) : Except PyErr Json :=
  match r.body with
  | some j => Except.ok j
  | none => Except.error PyErr.jsonDecodeError

/-- Python subscripting `j[key]`: `KeyError` on a dict without the key,
`TypeError` on anything that is not a dict. -/
def Json.getKey (j : Json) (key : String) : Except PyErr Json :=
  match j with
  | Json.obj fields =>
    match fields.lookup key with
    | some v => Except.ok v
    | none => Except.error (PyErr.keyError key)
  | _ => Except.error (PyErr.typeError "not subscriptable by string")

/-- Python truthiness of a JSON-shaped value. -/
def Json.pyTruthy : Json → Bool
  | Json.null => false
  | Json.bool b => b
  | Json.str s => s ≠ ""
  | Json.num n => n ≠ 0
  | Json.arr elems => ¬ elems.isEmpty
  | Json.obj fields => ¬ fields.isEmpty

/-- The outcomes the external chat API gives to each outbound request of
one webhook call. An `Except.error msg` is a transport failure: the
`requests` call itself raises only `RequestException` subclasses, so the
error carries just the message. -/
structure Network where
  postBot : String → Except String HttpResponse
  getGroup : Except String HttpResponse
  removeMember : Json → Except String HttpResponse
  deleteMsg : String → Except String HttpResponse

/-- Performing a `requests` call inside a `try` block: a transport failure
surfaces as a raised `RequestException`. -/
def performRequest (r : Except String HttpResponse) : Except PyErr HttpResponse :=
  match r with
  | Except.ok resp => Except.ok resp
  | Except.error msg => Except.error (PyErr.requestException msg)

/-- A `try`/`except requests.RequestException` block around `body` that
returns `fallback` from the handler. -/
def tryRequests {α : Type} (body : Except PyErr α) (fallback : α) : Except PyErr α :=
  match body with
  | Except.ok v => Except.ok v
  | Except.error e =>
    if e.isRequestException then Except.ok fallback else Except.error e

/-- `send_bot_message(text)`: POST to `bots/post`; `True` on 202, else logs
the JSON body and returns `False`; request exceptions give `False`. -/
def send_bot_message (net : Network) (text : String) : Except PyErr Bool :=
  tryRequests
    (match performRequest (net.postBot text) with
     | Except.error e => Except.error e
     | Except.ok response =>
       if response.status_code = 202 then
         Except.ok true
       else
         match response.json with
         | Except.error e => Except.error e
         | Except.ok _ => Except.ok false)
    false

/-- The `for member in group_data['members']` loop of `get_membership_id`:
returns the first matching member's `id`, `Json.null` (Python `None`) when
no member matches, and raises when a member is not subscriptable or lacks
the keys. -/
def findMembershipId (user_id : String) : List Json → Except PyErr Json
  | [] => Except.ok Json.null
  | member :: rest =>
    match member.getKey "user_id" with
    | Except.error e => Except.error e
    | Except.ok uid =>
      let isMatch :=
        match uid with
        | Json.str s => s == user_id
        | _ => false
      if isMatch then
        member.getKey "id"
      else
        findMembershipId user_id rest

/-- `get_membership_id(user_id)`: GET group info; on a non-200 status logs
the body and returns `None`; on 200 reads `['response']['members']` and
scans for the user; request exceptions give `None`. -/
def get_membership_id (net : Network) (user_id : String) : Except PyErr Json :=
  tryRequests
    (match performRequest net.getGroup with
     | Except.error e => Except.error e
     | Except.ok response =>
       if response.status_code ≠ 200 then
         match response.json with
         | Except.error e => Except.error e
         | Except.ok _ => Except.ok Json.null
       else
         match response.json with
         | Except.error e => Except.error e
         | Except.ok j =>
           match j.getKey "response" with
           | Except.error e => Except.error e
           | Except.ok group_data =>
             match group_data.getKey "members" with
             | Except.error e => Except.error e
             | Except.ok (Json.arr elems) => findMembershipId user_id elems
             | Except.ok _ => Except.error (PyErr.typeError "not iterable"))
    Json.null

/-- `delete_message(message_id)`: DELETE the message; `True` on 204, else
logs the body and returns `False`; request exceptions give `False`. -/
def delete_message (net : Network) (message_id : String) : Except PyErr Bool :=
  tryRequests
    (match performRequest (net.deleteMsg message_id) with
     | Except.error e => Except.error e
     | Except.ok response =>
       if response.status_code = 204 then
         Except.ok true
       else
         match response.json with
         | Except.error e => Except.error e
         | Except.ok _ => Except.ok false)
    false

/-- `kick_user(user_id, username)`: resolves the membership id (falsy id
means failure), then POSTs the removal; `True` on 200; request exceptions
give `False`. Errors not caught by `except requests.RequestException`
propagate out. -/
def kick_user (net : Network) (user_id : String) (_username : String) :
    Except PyErr Bool :=
  tryRequests
    (match get_membership_id net user_id with
     | Except.error e => Except.error e
     | Except.ok membership_id =>
       if ¬ membership_id.pyTruthy then
         Except.ok false
       else
         match performRequest (net.removeMember membership_id) with
         | Except.error e => Except.error e
         | Except.ok response =>
           if response.status_code = 200 then
             Except.ok true
           else
             match response.json with
             | Except.error e => Except.error e
             | Except.ok _ => Except.ok false)
    false

/-! ### Webhook dispatcher -/

/-- One parsed inbound payload as the handler reads it:
`text = data.get('text', '')`, `user_id = data.get('user_id')`,
`name = data.get('name', 'Unknown')`, `message_id = data.get('id')`,
`system = data.get('system')`. -/
structure Event where
  text : String
  user_id : String
  name : String
  message_id : Option String
  system : Bool

/-- One invocation of a top-level outbound operation by the handler. -/
inductive ApiCall where
  | deleteMessage (message_id : String)
  | kickUser (user_id : String) (name : String)
  | sendBotMessage (text : String)
deriving DecidableEq

/-- `'added' in text.lower() or 'joined' in text.lower()`. -/
def joinWorded (text : String) : Bool :=
  strContains "added" (pyLower text) || strContains "joined" (pyLower text)

/-- What one call of the `/webhook` handler produces: the HTTP status of
the acknowledgment, the dict `recently_joined` after the call, and the
outbound operations invoked, in order. -/
structure WebhookResult where
  status : Nat
  tracker : Tracker
  calls : List ApiCall

/-- The notification text `f"⚠️ User {username} was removed for violating
group rules."`. -/
def removalMessage (username : String) : String :=
  "⚠️ User " ++ username ++ " was removed for violating group rules."

/-- The body of the triggered branch of the handler: best-effort delete of
the offending message, then the kick, and on kick success the notification
and the dict cleanup. An uncaught exception from any operation falls to the
handler's blanket `except Exception`, which acknowledges with status 500;
the dict and the list of calls made up to that point are kept. -/
def moderationPipeline (net : Network) (ev : Event) (st : Tracker) : WebhookResult :=
  let deleteCalls : List ApiCall :=
    if pyTruthyOptStr ev.message_id then
      [ApiCall.deleteMessage (ev.message_id.getD "")]
    else
      []
  let deleteOutcome : Except PyErr Unit :=
    if pyTruthyOptStr ev.message_id then
      match delete_message net (ev.message_id.getD "") with
      | Except.ok _ => Except.ok ()
      | Except.error e => Except.error e
    else
      Except.ok ()
  match deleteOutcome with
  | Except.error _ => ⟨500, st, deleteCalls⟩
  | Except.ok _ =>
    let kickCalls := deleteCalls ++ [ApiCall.kickUser ev.user_id ev.name]
    match kick_user net ev.user_id ev.name with
    | Except.error _ => ⟨500, st, kickCalls⟩
    | Except.ok kicked =>
      if kicked then
        let message := removalMessage ev.name
        let sendCalls := kickCalls ++ [ApiCall.sendBotMessage message]
        match send_bot_message net message with
        | Except.error _ => ⟨500, st, sendCalls⟩
        | Except.ok _ =>
          let cleaned :=
            match st ev.user_id with
            | some _ => trackerErase st ev.user_id
            | none => st
          ⟨200, cleaned, sendCalls⟩
      else
        ⟨200, st, kickCalls⟩

/-- The `/webhook` handler on a parsed payload. A system event whose text
mentions `added` or `joined` records the join and acknowledges at once;
every other event (system or not) falls through to the moderation check,
whose conjunction short-circuits: `is_new_user` runs only when a banned
keyword was found. -/
def webhook (net : Network) (ev : Event) (st : Tracker) (now : Int) : WebhookResult :=
  if ev.system && joinWorded ev.text then
    ⟨200, trackerInsert st ev.user_id now, []⟩
  else if contains_banned_keyword ev.text then
    if (is_new_user st now ev.user_id).1 then
      moderationPipeline net ev (is_new_user st now ev.user_id).2
    else
      ⟨200, (is_new_user st now ev.user_id).2, []⟩
  else
    ⟨200, st, []⟩

/-- The Action Executor pipeline was invoked for this webhook call: a kick
was attempted (the triggered branch always attempts the kick). -/
def moderationTriggered (r : WebhookResult) : Prop :=
  ∃ u n, ApiCall.kickUser u n ∈ r.calls

/-! ### Operation sequences on the tracker -/

/-- The three operations the program ever performs on `recently_joined`:
the join recording of the dispatcher, the explicit deletion after a
successful removal, and an `is_new_user` check (which may evict). -/
inductive TrackerOp where
  | recordJoinOp (u : String) (t : Int)
  | forgetOp (u : String)
  | checkOp (u : String) (t : Int)
deriving DecidableEq

/-- Effect of one tracker operation on the dict. -/
def applyTrackerOp (st : Tracker) : TrackerOp → Tracker
  | TrackerOp.recordJoinOp u t => trackerInsert st u t
  | TrackerOp.forgetOp u => trackerErase st u
  | TrackerOp.checkOp u t => (is_new_user st t u).2

/-- Effect of a sequence of tracker operations, oldest first. -/
def applyTrackerOps (st : Tracker) (ops : List TrackerOp) : Tracker :=
  ops.foldl applyTrackerOp st

/-! ### Concrete fixtures for witnesses and scenarios -/

/-- A network where every outbound request fails at the transport level. -/
def netUnavailable : Network :=
  { postBot := fun _ => Except.error "connection refused",
    getGroup := Except.error "connection refused",
    removeMember := fun _ => Except.error "connection refused",
    deleteMsg := fun _ => Except.error "connection refused" }

/-- A healthy network: the group has members `u1 ↦ mem1` and `u2 ↦ mem2`,
and every call succeeds with its expected status. -/
def netAllOk : Network :=
  { postBot := fun _ => Except.ok ⟨202, none⟩,
    getGroup := Except.ok ⟨200, some (Json.obj
      [("response", Json.obj
        [("members", Json.arr
          [ Json.obj [("user_id", Json.str "u1"), ("id", Json.str "mem1")],
            Json.obj [("user_id", Json.str "u2"), ("id", Json.str "mem2")] ])])])⟩,
    removeMember := fun _ => Except.ok ⟨200, some (Json.obj [("ok", Json.bool true)])⟩,
    deleteMsg := fun _ => Except.ok ⟨204, none⟩ }

/-- Like `netAllOk`, but the group-info body, though status 200 and valid
JSON, lacks the `members` key inside `response`. -/
def netMalformedGroup : Network :=
  { postBot := fun _ => Except.ok ⟨202, none⟩,
    getGroup := Except.ok ⟨200, some (Json.obj
      [("response", Json.obj [("id", Json.str "g1")])])⟩,
    removeMember := fun _ => Except.ok ⟨200, some (Json.obj [("ok", Json.bool true)])⟩,
    deleteMsg := fun _ => Except.ok ⟨204, none⟩ }

/-- Like `netAllOk`, but the group has no members, so any membership
lookup misses. -/
def netEmptyGroup : Network :=
  { postBot := fun _ => Except.ok ⟨202, none⟩,
    getGroup := Except.ok ⟨200, some (Json.obj
      [("response", Json.obj [("members", Json.arr [])])])⟩,
    removeMember := fun _ => Except.ok ⟨200, some (Json.obj [("ok", Json.bool true)])⟩,
    deleteMsg := fun _ => Except.ok ⟨204, none⟩ }

/-- A network whose group-info request is answered with a non-success
status (403) carrying a JSON error body. -/
def netForbidden : Network :=
  { postBot := fun _ => Except.ok ⟨202, none⟩,
    getGroup := Except.ok ⟨403, some (Json.obj
      [("meta", Json.obj [("code", Json.num 403)])])⟩,
    removeMember := fun _ => Except.ok ⟨200, some (Json.obj [("ok", Json.bool true)])⟩,
    deleteMsg := fun _ => Except.ok ⟨204, none⟩ }

/-- Like `netAllOk`, except the removal POST itself fails at the
transport level. -/
def netRemoveDown : Network :=
  { postBot := fun _ => Except.ok ⟨202, none⟩,
    getGroup := Except.ok ⟨200, some (Json.obj
      [("response", Json.obj
        [("members", Json.arr
          [ Json.obj [("user_id", Json.str "u1"), ("id", Json.str "mem1")] ])])])⟩,
    removeMember := fun _ => Except.error "connection reset",
    deleteMsg := fun _ => Except.ok ⟨204, none⟩ }

/-- Like `netAllOk`, except the removal POST is answered with a
non-success status (403) carrying a JSON error body. -/
def netRemoveForbidden : Network :=
  { postBot := fun _ => Except.ok ⟨202, none⟩,
    getGroup := Except.ok ⟨200, some (Json.obj
      [("response", Json.obj
        [("members", Json.arr
          [ Json.obj [("user_id", Json.str "u1"), ("id", Json.str "mem1")] ])])])⟩,
    removeMember := fun _ => Except.ok ⟨403, some (Json.obj
      [("meta", Json.obj [("code", Json.num 403)])])⟩,
    deleteMsg := fun _ => Except.ok ⟨204, none⟩ }

/-- The system join event for user `u1` (display name `u1`). -/
def joinEventU1 : Event :=
  ⟨"u1 has joined the group", "u1", "u1", none, true⟩

/-- The regular message of end-to-end scenario 1, exactly as the spec
words it. -/
def scamEventU1 : Event :=
  ⟨"this is a scam, bitcoin deal", "u1", "u1", some "m1", false⟩

/-- Scenario 1's message with a text that does contain a banned keyword
(`free`). -/
def scamFreeEventU1 : Event :=
  ⟨"this is a scam, free bitcoin deal", "u1", "u1", some "m1", false⟩

/-! ### Helper lemmas -/

theorem charsPrefix_iff (n : List Char) : ∀ h : List Char,
    charsPrefix n h = true ↔ ∃ q, n ++ q = h := by
  induction n with
  | nil =>
    intro h
    simp [charsPrefix]
  | cons a as ih =>
    intro h
    cases h with
    | nil =>
      simp [charsPrefix]
    | cons b bs =>
      simp only [charsPrefix, Bool.and_eq_true, beq_iff_eq, ih bs, List.cons_append,
        List.cons.injEq]
      constructor
      · rintro ⟨hab, q, hq⟩
        exact ⟨q, hab, hq⟩
      · rintro ⟨q, hab, hq⟩
        exact ⟨hab, q, hq⟩

theorem charsSub_iff (n : List Char) : ∀ h : List Char,
    charsSub n h = true ↔ ∃ p q, p ++ n ++ q = h := by
  intro h
  induction h with
  | nil =>
    rw [charsSub]
    simp only [Bool.or_false, charsPrefix_iff]
    constructor
    · rintro ⟨q, hq⟩
      exact ⟨[], q, by simpa using hq⟩
    · rintro ⟨p, q, hpq⟩
      have h' : p = [] ∧ n = [] ∧ q = [] := by simpa using hpq
      exact ⟨[], by simp [h'.2.1]⟩
  | cons b t ih =>
    rw [charsSub]
    simp only [Bool.or_eq_true, charsPrefix_iff, ih]
    constructor
    · rintro (⟨q, hq⟩ | ⟨p, q, hpq⟩)
      · exact ⟨[], q, by simpa using hq⟩
      · exact ⟨b :: p, q, by simp [hpq]⟩
    · rintro ⟨p, q, hpq⟩
      cases p with
      | nil =>
        exact Or.inl ⟨q, by simpa using hpq⟩
      | cons c p' =>
        have h' : c = b ∧ p' ++ n ++ q = t := by simpa using hpq
        exact Or.inr ⟨p', q, h'.2⟩

theorem send_bot_message_ok (net : Network) (text : String) :
    ∃ b, send_bot_message net text = Except.ok b := by
  unfold send_bot_message tryRequests performRequest
  cases h : net.postBot text with
  | error msg => exact ⟨false, by simp [h, PyErr.isRequestException]⟩
  | ok resp =>
    by_cases hs : resp.status_code = 202
    · exact ⟨true, by simp [h, hs]⟩
    · cases hb : resp.body with
      | none =>
        exact ⟨false, by simp [h, hs, HttpResponse.json, hb,
          PyErr.isRequestException]⟩
      | some j =>
        exact ⟨false, by simp [h, hs, HttpResponse.json, hb]⟩

theorem delete_message_ok (net : Network) (mid : String) :
    ∃ b, delete_message net mid = Except.ok b := by
  unfold delete_message tryRequests performRequest
  cases h : net.deleteMsg mid with
  | error msg => exact ⟨false, by simp [h, PyErr.isRequestException]⟩
  | ok resp =>
    by_cases hs : resp.status_code = 204
    · exact ⟨true, by simp [h, hs]⟩
    · cases hb : resp.body with
      | none =>
        exact ⟨false, by simp [h, hs, HttpResponse.json, hb,
          PyErr.isRequestException]⟩
      | some j =>
        exact ⟨false, by simp [h, hs, HttpResponse.json, hb]⟩

theorem is_new_user_true_state (st : Tracker) (now : Int) (u : String)
    (h : (is_new_user st now u).1 = true) : (is_new_user st now u).2 = st := by
  unfold is_new_user at *
  cases hu : st u with
  | none => simp [hu] at h
  | some jt =>
    by_cases hexp : now - jt > newUserWindow
    · simp [hu, hexp] at h
    · simp [hu, hexp]

theorem is_new_user_false_absent (st : Tracker) (now : Int) (u : String)
    (h : (is_new_user st now u).1 = false) : (is_new_user st now u).2 u = none := by
  unfold is_new_user at *
  cases hu : st u with
  | none => simp [hu]
  | some jt =>
    by_cases hexp : now - jt > newUserWindow
    · simp [hu, hexp, trackerErase]
    · simp [hu, hexp] at h

theorem is_new_user_of_absent (st : Tracker) (now : Int) (u : String)
    (h : st u = none) : is_new_user st now u = (false, st) := by
  unfold is_new_user
  simp [h]

theorem is_new_user_state_preserves_absent (st : Tracker) (now : Int) (v u : String)
    (h : st u = none) : (is_new_user st now v).2 u = none := by
  unfold is_new_user
  cases hv : st v with
  | none => simpa using h
  | some jt =>
    by_cases hexp : now - jt > newUserWindow
    · simp [hexp, trackerErase]
      intro
      exact h
    · simpa [hexp] using h

theorem applyTrackerOps_preserves_absent (u : String) (ops : List TrackerOp)
    (hops : ∀ t', TrackerOp.recordJoinOp u t' ∉ ops) :
    ∀ st : Tracker, st u = none → applyTrackerOps st ops u = none := by
  induction ops with
  | nil =>
    intro st h
    simpa [applyTrackerOps] using h
  | cons op rest ih =>
    intro st h
    have hops' : ∀ t', TrackerOp.recordJoinOp u t' ∉ rest := by
      intro t' hmem
      exact hops t' (List.mem_cons_of_mem op hmem)
    have step : applyTrackerOp st op u = none := by
      cases op with
      | recordJoinOp v t =>
        have hvu : v ≠ u := by
          intro hveq
          exact hops t (by simp [hveq])
        simpa [applyTrackerOp, trackerInsert, Ne.symm hvu] using h
      | forgetOp v =>
        by_cases hvu : u = v
        · simp [applyTrackerOp, trackerErase, hvu]
        · simpa [applyTrackerOp, trackerErase, hvu] using h
      | checkOp v t =>
        exact is_new_user_state_preserves_absent st t v u h
    have : applyTrackerOps st (op :: rest) = applyTrackerOps (applyTrackerOp st op) rest := by
      simp [applyTrackerOps, List.foldl_cons]
    rw [this]
    exact ih hops' (applyTrackerOp st op) step

theorem kick_mem_pipeline (net : Network) (ev : Event) (st : Tracker) :
    ApiCall.kickUser ev.user_id ev.name ∈ (moderationPipeline net ev st).calls := by
  unfold moderationPipeline
  obtain ⟨b, hb⟩ := delete_message_ok net (ev.message_id.getD "")
  by_cases hmid : pyTruthyOptStr ev.message_id <;>
    simp only [hmid, if_true, if_false, hb] <;>
    rcases kick_user net ev.user_id ev.name with e | kicked <;>
    (try cases kicked) <;>
    (try rcases send_bot_message net (removalMessage ev.name) with e2 | c) <;>
    (try cases st ev.user_id) <;>
    simp

/-! ### Claim theorems -/

/-- C7: for every text `T`, `contains_banned_keyword T` is true exactly
when some keyword of the configured banned list, lower-cased, occurs as a
substring of `T` lower-cased; and it is false on the empty (absent) text. -/
theorem c7_contains_banned_keyword_spec :
    (∀ T : String, contains_banned_keyword T = true ↔
      ∃ k ∈ BANNED_KEYWORDS, ∃ p q, p ++ (pyLower k).data ++ q = (pyLower T).data) ∧
    contains_banned_keyword "" = false := by
  constructor
  · intro T
    by_cases hT : T = ""
    · subst hT
      constructor
      · intro h
        exact absurd h (by decide)
      · rintro ⟨k, hk, p, q, hpq⟩
        have h0 : (pyLower "").data = ([] : List Char) := rfl
        rw [h0] at hpq
        have hnil : p = [] ∧ (pyLower k).data = [] ∧ q = [] := by simpa using hpq
        have hne : ∀ k ∈ BANNED_KEYWORDS, (pyLower k).data ≠ [] := by decide
        exact absurd hnil.2.1 (hne k hk)
    · have hT' : pyTruthyStr T = true := by simpa [pyTruthyStr] using hT
      simp only [contains_banned_keyword, hT', not_true, if_false, List.any_eq_true,
        strContains, charsSub_iff]
  · decide

/-- C3 corrected: immediately after a join is recorded at `t0`, an
`is_new_user` check at `t0 + Δ` returns true exactly when `Δ ≤ 72` hours —
the code evicts only when the elapsed time STRICTLY exceeds the window, so
at `Δ = 72` hours exactly the user still counts as new. -/
theorem c3_recent_window_boundary (st : Tracker) (u : String) (t0 δ : Int) :
    (is_new_user (trackerInsert st u t0) (t0 + δ) u).1 = decide (δ ≤ newUserWindow) := by
  unfold is_new_user trackerInsert
  simp only [eq_self_iff_true, if_true]
  have harith : t0 + δ - t0 = δ := by ring
  rw [harith]
  by_cases h : δ > newUserWindow
  · rw [if_pos h]
    have hle : ¬ (δ ≤ newUserWindow) := by omega
    simp [hle]
  · rw [if_neg h]
    have hle : δ ≤ newUserWindow := by omega
    simp [hle]

/-- C3 as stated is false: at offset exactly 72 hours — a point of the
claim's "Δ ≥ 72 hours returns false" range — `is_new_user` returns true. -/
theorem c3_counterexample :
    72 * secondsPerHour ≥ 72 * secondsPerHour ∧
    (is_new_user (trackerInsert emptyTracker "u1" 0) (0 + 72 * secondsPerHour) "u1").1
      = true := by
  exact ⟨le_refl _, by decide⟩

/-- C9: the keyword list literal evaluates with the adjacent strings
`'health'` and `'charger included'` concatenated: 30 entries, the merged
entry is matched literally, and its two halves are not keywords. -/
theorem c9_keyword_list_literal :
    BANNED_KEYWORDS.length = 30 ∧
    "healthcharger included" ∈ BANNED_KEYWORDS ∧
    "health" ∉ BANNED_KEYWORDS ∧
    "charger included" ∉ BANNED_KEYWORDS ∧
    contains_banned_keyword "health" = false ∧
    contains_banned_keyword "charger included" = false ∧
    contains_banned_keyword "for sale, healthcharger included" = true := by
  refine ⟨by decide, by decide, by decide, by decide, by decide, by decide, by decide⟩

/-- C2 is the intent but not the code: `validate_config` would reject a
configuration with an unset bot identifier, yet the `__main__` block never
invokes it — it logs and starts the server regardless. -/
theorem c2_startup_skips_validation :
    validate_config ⟨none, some "token123", some "group456"⟩ =
      Except.error "Missing BOT_ID, ACCESS_TOKEN, or GROUP_ID" ∧
    StartupStep.validateConfig ∉ mainStartup ⟨none, some "token123", some "group456"⟩ ∧
    StartupStep.runServer ∈ mainStartup ⟨none, some "token123", some "group456"⟩ :=
  ⟨rfl, by decide, by decide⟩

/-- C10: handling a non-system message whose text contains no banned
keyword leaves `recently_joined` completely unchanged and performs no
outbound call — the conjunction short-circuits, so `is_new_user` (and its
lazy eviction) is never reached. -/
theorem c10_frame_no_keyword (net : Network) (ev : Event) (st : Tracker) (now : Int)
    (hsys : ev.system = false) (hkw : contains_banned_keyword ev.text = false) :
    webhook net ev st now = ⟨200, st, []⟩ := by
  unfold webhook
  rw [hsys, hkw]
  simp

/-- Witness for C10 at a concrete event, network and state. -/
theorem c10_frame_no_keyword_witness :
    webhook netUnavailable ⟨"hello there", "u1", "Bob", some "m1", false⟩
        (trackerInsert emptyTracker "u1" 0) 10 =
      ⟨200, trackerInsert emptyTracker "u1" 0, []⟩ :=
  c10_frame_no_keyword netUnavailable ⟨"hello there", "u1", "Bob", some "m1", false⟩
    (trackerInsert emptyTracker "u1" 0) 10 rfl (by decide)

/-- C4 corrected: for every inbound event, moderation triggers iff the
event is NOT a system event whose text mentions `added`/`joined`, AND the
text contains a banned keyword, AND the sender is within the new-user
window. System events whose text lacks the join wording fall through to
the moderation check. -/
theorem c4_trigger_iff (net : Network) (ev : Event) (st : Tracker) (now : Int) :
    moderationTriggered (webhook net ev st now) ↔
      (¬ (ev.system = true ∧ joinWorded ev.text = true) ∧
        contains_banned_keyword ev.text = true ∧
        (is_new_user st now ev.user_id).1 = true) := by
  unfold webhook
  by_cases hsys : (ev.system && joinWorded ev.text) = true
  · rw [if_pos hsys]
    rw [Bool.and_eq_true] at hsys
    simp [moderationTriggered, hsys]
  · rw [if_neg hsys]
    rw [Bool.and_eq_true] at hsys
    by_cases hkw : contains_banned_keyword ev.text = true
    · rw [if_pos hkw]
      by_cases hnew : (is_new_user st now ev.user_id).1 = true
      · rw [if_pos hnew]
        constructor
        · intro _
          exact ⟨hsys, hkw, hnew⟩
        · intro _
          exact ⟨ev.user_id, ev.name, kick_mem_pipeline net ev _⟩
      · rw [if_neg hnew]
        simp [moderationTriggered, hnew]
    · rw [if_neg hkw]
      simp [moderationTriggered, hkw]

/-- C4 as stated is false: this system event — its text has no join
wording but a banned keyword, its sender a recent joiner — IS moderated:
the kick is attempted. -/
theorem c4_counterexample :
    (⟨"free stuff", "u1", "Bob", some "m1", true⟩ : Event).system = true ∧
    moderationTriggered (webhook netAllOk ⟨"free stuff", "u1", "Bob", some "m1", true⟩
      (trackerInsert emptyTracker "u1" 0) 10) := by
  refine ⟨rfl, "u1", "Bob", by decide⟩

/-- C6: when a triggered moderation's kick returns failure, no
notification is sent, `recently_joined` is exactly as before the call, and
the user still checks as new at any instant within the window. -/
theorem c6_kick_failure_keeps_record (net : Network) (ev : Event) (st : Tracker)
    (now : Int)
    (hng : (ev.system && joinWorded ev.text) = false)
    (hkw : contains_banned_keyword ev.text = true)
    (hnew : (is_new_user st now ev.user_id).1 = true)
    (hkick : kick_user net ev.user_id ev.name = Except.ok false) :
    (∀ msg, ApiCall.sendBotMessage msg ∉ (webhook net ev st now).calls) ∧
    (webhook net ev st now).tracker = st ∧
    (∀ t jt, st ev.user_id = some jt → t - jt ≤ newUserWindow →
      (is_new_user (webhook net ev st now).tracker t ev.user_id).1 = true) := by
  have hst : (is_new_user st now ev.user_id).2 = st :=
    is_new_user_true_state _ _ _ hnew
  have hweb : webhook net ev st now = moderationPipeline net ev st := by
    unfold webhook
    rw [if_neg (by simp [hng]), if_pos hkw, if_pos hnew, hst]
  obtain ⟨b, hb⟩ := delete_message_ok net (ev.message_id.getD "")
  have hafter : ∀ t jt, st ev.user_id = some jt → t - jt ≤ newUserWindow →
      (is_new_user st t ev.user_id).1 = true := by
    intro t jt hjt hwin
    unfold is_new_user
    simp only [hjt]
    rw [if_neg (by omega)]
  rw [hweb]
  unfold moderationPipeline
  by_cases hmid : pyTruthyOptStr ev.message_id
  · simp only [hmid, if_true, hb, hkick]
    exact ⟨by simp, by simp, by simpa using hafter⟩
  · simp only [hmid, if_false, hkick]
    exact ⟨by simp, by simp, by simpa using hafter⟩

/-- Witness for C6: a new user posts a banned keyword, the membership
lookup misses (empty member list), so the kick fails; nothing is sent and
the user is still new one hour later. -/
theorem c6_kick_failure_keeps_record_witness :
    (ApiCall.sendBotMessage (removalMessage "Bob") ∉
      (webhook netEmptyGroup ⟨"free stuff", "u1", "Bob", some "m1", false⟩
        (trackerInsert emptyTracker "u1" 0) 10).calls) ∧
    (is_new_user (webhook netEmptyGroup ⟨"free stuff", "u1", "Bob", some "m1", false⟩
        (trackerInsert emptyTracker "u1" 0) 10).tracker secondsPerHour "u1").1 = true := by
  have h := c6_kick_failure_keeps_record netEmptyGroup
    ⟨"free stuff", "u1", "Bob", some "m1", false⟩
    (trackerInsert emptyTracker "u1" 0) 10 (by decide) (by decide) (by decide) rfl
  exact ⟨h.1 (removalMessage "Bob"), h.2.2 secondsPerHour 0 (by decide) (by decide)⟩

/-- C8: once an `is_new_user` call has returned false for a recorded user
(evicting the entry), every later check of that user returns false across
any sequence of tracker operations that records no new join for them. -/
theorem c8_eviction_is_sticky (st : Tracker) (u : String) (t jt : Int)
    (_hpresent : st u = some jt)
    (hfalse : (is_new_user st t u).1 = false)
    (ops : List TrackerOp) (hops : ∀ t', TrackerOp.recordJoinOp u t' ∉ ops)
    (t'' : Int) :
    (is_new_user (applyTrackerOps (is_new_user st t u).2 ops) t'' u).1 = false := by
  have h1 : (is_new_user st t u).2 u = none := is_new_user_false_absent st t u hfalse
  have h2 : applyTrackerOps (is_new_user st t u).2 ops u = none :=
    applyTrackerOps_preserves_absent u ops hops _ h1
  rw [is_new_user_of_absent _ _ _ h2]

/-- Witness for C8: `u1` joined at 0, is checked one second past the
window (evicted), and stays non-new across unrelated tracker operations. -/
theorem c8_eviction_is_sticky_witness :
    (is_new_user (applyTrackerOps
        (is_new_user (trackerInsert emptyTracker "u1" 0) (newUserWindow + 1) "u1").2
        [TrackerOp.forgetOp "u2", TrackerOp.checkOp "u1" 3])
      (newUserWindow + 2) "u1").1 = false :=
  c8_eviction_is_sticky (trackerInsert emptyTracker "u1" 0) "u1" (newUserWindow + 1) 0
    (by decide) (by decide)
    [TrackerOp.forgetOp "u2", TrackerOp.checkOp "u1" 3]
    (by intro t'; simp) (newUserWindow + 2)

/-- C5 as stated is false: a status-200 group-info response whose JSON
body lacks the `members` key makes the lookup raise `KeyError`, which
`kick_user`'s `except requests.RequestException` does not catch; the
exception reaches the webhook dispatcher, whose blanket handler turns it
into a 500 acknowledgment. -/
theorem c5_counterexample :
    kick_user netMalformedGroup "u1" "Bob" = Except.error (PyErr.keyError "members") ∧
    (webhook netMalformedGroup ⟨"free stuff", "u1", "Bob", some "m1", false⟩
        (trackerInsert emptyTracker "u1" 0) 10).status = 500 :=
  ⟨rfl, rfl⟩

/-- C5 corrected: `send_bot_message` and `delete_message` return a boolean
for every response outcome; `get_membership_id` and `kick_user` absorb
transport failures and non-success statuses with JSON bodies, reporting
`None`/`False` — only a success-status body of unexpected shape makes them
propagate an exception. -/
theorem c5_failures_absorbed (net : Network) :
    (∀ text, ∃ b, send_bot_message net text = Except.ok b) ∧
    (∀ mid, ∃ b, delete_message net mid = Except.ok b) ∧
    (∀ msg u n, net.getGroup = Except.error msg →
      get_membership_id net u = Except.ok Json.null ∧
      kick_user net u n = Except.ok false) ∧
    (∀ resp j u n, net.getGroup = Except.ok resp → resp.status_code ≠ 200 →
      resp.body = some j →
      get_membership_id net u = Except.ok Json.null ∧
      kick_user net u n = Except.ok false) ∧
    (∀ mid msg u n, get_membership_id net u = Except.ok mid → mid.pyTruthy = true →
      net.removeMember mid = Except.error msg →
      kick_user net u n = Except.ok false) ∧
    (∀ mid resp j u n, get_membership_id net u = Except.ok mid → mid.pyTruthy = true →
      net.removeMember mid = Except.ok resp → resp.status_code ≠ 200 →
      resp.body = some j →
      kick_user net u n = Except.ok false) := by
  refine ⟨send_bot_message_ok net, delete_message_ok net, ?_, ?_, ?_, ?_⟩
  · intro msg u n hg
    have hget : get_membership_id net u = Except.ok Json.null := by
      unfold get_membership_id tryRequests performRequest
      simp [hg, PyErr.isRequestException]
    refine ⟨hget, ?_⟩
    unfold kick_user tryRequests
    simp [hget, Json.pyTruthy]
  · intro resp j u n hg hs hb
    have hget : get_membership_id net u = Except.ok Json.null := by
      unfold get_membership_id tryRequests performRequest
      simp [hg, hs, HttpResponse.json, hb]
    refine ⟨hget, ?_⟩
    unfold kick_user tryRequests
    simp [hget, Json.pyTruthy]
  · intro mid msg u n hget hmid hrm
    unfold kick_user tryRequests performRequest
    simp [hget, hmid, hrm, PyErr.isRequestException]
  · intro mid resp j u n hget hmid hrm hs hb
    unfold kick_user tryRequests performRequest
    simp [hget, hmid, hrm, hs, HttpResponse.json, hb]

/-- Witness for C5's amended statement, exercising each absorption clause:
a transport-dead network, a 403 group fetch with a JSON body, a
transport-dead removal POST after a successful lookup, and a 403 removal
POST with a JSON body after a successful lookup. -/
theorem c5_failures_absorbed_witness :
    (∃ b, send_bot_message netUnavailable "hi" = Except.ok b) ∧
    (∃ b, delete_message netUnavailable "m1" = Except.ok b) ∧
    kick_user netUnavailable "u1" "Bob" = Except.ok false ∧
    (get_membership_id netForbidden "u1" = Except.ok Json.null ∧
      kick_user netForbidden "u1" "Bob" = Except.ok false) ∧
    kick_user netRemoveDown "u1" "Bob" = Except.ok false ∧
    kick_user netRemoveForbidden "u1" "Bob" = Except.ok false :=
  ⟨(c5_failures_absorbed netUnavailable).1 "hi",
    (c5_failures_absorbed netUnavailable).2.1 "m1",
    ((c5_failures_absorbed netUnavailable).2.2.1 "connection refused" "u1" "Bob" rfl).2,
    (c5_failures_absorbed netForbidden).2.2.2.1
      ⟨403, some (Json.obj [("meta", Json.obj [("code", Json.num 403)])])⟩
      (Json.obj [("meta", Json.obj [("code", Json.num 403)])]) "u1" "Bob"
      rfl (by decide) rfl,
    (c5_failures_absorbed netRemoveDown).2.2.2.2.1 (Json.str "mem1") "connection reset"
      "u1" "Bob" rfl (by decide) rfl,
    (c5_failures_absorbed netRemoveForbidden).2.2.2.2.2 (Json.str "mem1")
      ⟨403, some (Json.obj [("meta", Json.obj [("code", Json.num 403)])])⟩
      (Json.obj [("meta", Json.obj [("code", Json.num 403)])]) "u1" "Bob"
      rfl (by decide) rfl (by decide) rfl⟩

/-- C1 as stated is false: the scenario's message text contains no banned
keyword, so after the join is recorded the message webhook call performs
no outbound call at all (and the user stays tracked). -/
theorem c1_counterexample :
    (webhook netAllOk joinEventU1 emptyTracker 0).tracker "u1" = some 0 ∧
    contains_banned_keyword "this is a scam, bitcoin deal" = false ∧
    (webhook netAllOk scamEventU1
        (webhook netAllOk joinEventU1 emptyTracker 0).tracker secondsPerHour).calls
      = [] :=
  ⟨rfl, by decide, rfl⟩

/-- C1 corrected: with a message text that does contain a banned keyword
(`free`), the end-to-end scenario holds: after `u1`'s join at `t0 = 0`,
the message at `t0 + 1h` triggers the delete of `m1` and the kick of `u1`;
the kick succeeds, the notification containing `u1` goes out, and `u1` is
no longer tracked as new. -/
theorem c1_amended_scenario :
    (webhook netAllOk joinEventU1 emptyTracker 0).tracker "u1" = some 0 ∧
    (webhook netAllOk scamFreeEventU1
        (webhook netAllOk joinEventU1 emptyTracker 0).tracker secondsPerHour).calls =
      [ApiCall.deleteMessage "m1", ApiCall.kickUser "u1" "u1",
        ApiCall.sendBotMessage (removalMessage "u1")] ∧
    strContains "u1" (removalMessage "u1") = true ∧
    (webhook netAllOk scamFreeEventU1
        (webhook netAllOk joinEventU1 emptyTracker 0).tracker secondsPerHour).tracker
      "u1" = none ∧
    (is_new_user (webhook netAllOk scamFreeEventU1
        (webhook netAllOk joinEventU1 emptyTracker 0).tracker secondsPerHour).tracker
      (2 * secondsPerHour) "u1").1 = false :=
  ⟨rfl, rfl, by decide, rfl, rfl⟩
